import Mathlib

/-!
Verification development for the Mangyomi installer
(`src/installer/src-tauri/src/main.rs`).

The embedding models the install orchestration: zip entry path resolution
in `extract_zip`, payload discovery and the progress-event sequence in
`install_app`, shortcut registration in `create_shortcuts`, version-cache
recording in `cache_for_differential_updates` / `cache_for_silent_install`,
and the mode dispatch in `main`. Filesystem and process effects are
abstracted as environment records; paths are modelled as component lists.
-/

namespace Mangyomi

/-- A filesystem-style path: an absolute flag plus a list of components.
Models Rust `PathBuf` for the purposes of `join` and OS-level resolution. -/
structure RPath where
  absolute : Bool
  comps : List String
deriving DecidableEq, Repr

/-- Split a string into the groups of characters between separator
characters (structurally, over the character list). -/
def splitSlash (s : String) : List String :=
  (s.data.foldr
    (fun c acc =>
      if c == '/' then [] :: acc
      else
        match acc with
        | [] => [[c]]
        | h :: t => (c :: h) :: t)
    [[]]).map (fun cs => { data := cs })

/-- Parse a path string into components, splitting on the separator.
A leading separator marks an absolute path (as in `PathBuf::from`). -/
def parsePath (s : String) : RPath :=
  { absolute := match s.data with | [] => false | c :: _ => c == '/'
    comps := (splitSlash s).filter (fun c => c ≠ "") }

/-- Rust `PathBuf::join`: an absolute right-hand path replaces the base,
otherwise the components are appended. No normalization is performed,
exactly as in `PathBuf`. -/
def joinPath (base p : RPath) : RPath :=
  if p.absolute then p
  else { absolute := base.absolute, comps := base.comps ++ p.comps }

/-- OS-level resolution of `.` and `..` components, as the filesystem
performs when a file is created at the path. -/
def normComps (cs : List String) : List String :=
  cs.foldl
    (fun acc c =>
      if c = "." then acc
      else if c = ".." then acc.dropLast
      else acc ++ [c]) []

/-- Normalize a path by resolving `.` and `..` components. -/
def normPath (p : RPath) : RPath :=
  { absolute := p.absolute, comps := normComps p.comps }

/-- One entry of a zip archive: its stored name and whether it is a
directory entry. -/
structure ZipEntry where
  name : String
  is_dir : Bool
deriving DecidableEq, Repr

/-- The target path `extract_zip` computes for an entry (main.rs lines
110 to 111): `PathBuf::from(output_path).join(file_name)`, with no
sanitization of the stored name. -/
def entryOutPath (output_path : String) (e : ZipEntry) : RPath :=
  joinPath (parsePath output_path) (parsePath e.name)

/-- The sequence of paths `extract_zip` writes to: every entry is
materialized (as a directory or a file) at its computed out path
(main.rs lines 107 to 124). -/
def extract_zip_writes (output_path : String) (entries : List ZipEntry) : List RPath :=
  entries.map (entryOutPath output_path)

/-- Whether a write at path `p` resolves to a location inside the
destination directory `dest`: after resolving `..` segments, `dest` must
be a prefix of the written path. -/
def resolves_inside (dest p : RPath) : Bool :=
  (normPath p).absolute == (normPath dest).absolute &&
    List.isPrefixOf (normPath dest).comps (normPath p).comps

/-- A progress event emitted to the front end (struct `Payload` in
main.rs lines 235 to 239). -/
structure Payload where
  status : String
  percent : Nat
deriving DecidableEq, Repr

/-- Environment of the version-cache recorder: the APPDATA variable, the
outcome of creating the cache directory, and the state of the
`version.txt` marker in the install directory (`none` read result means
`read_to_string` failed). -/
structure CacheEnv where
  appdata : Option String
  create_cache_dir_ok : Bool
  version_txt_exists : Bool
  version_txt_read : Option String
deriving DecidableEq, Repr

/-- Whitespace test used by the trim model (the ASCII cases of Rust
`char::is_whitespace`). -/
def isSpaceChar (c : Char) : Bool :=
  c == ' ' || c == '\t' || c == '\n' || c == '\r'

/-- Structural model of `str::trim`: drop whitespace from both ends of
the character list. -/
def trimString (s : String) : String :=
  { data := ((s.data.dropWhile isSpaceChar).reverse.dropWhile isSpaceChar).reverse }

/-- The version string computed from the `version.txt` marker (main.rs
lines 185 to 193 and 216 to 224): if the file exists, read it, falling
back to the sentinel on a read error, and trim; if it does not exist,
the sentinel is used directly. -/
def readVersionTxt (version_txt_exists : Bool) (version_txt_read : Option String) : String :=
  if version_txt_exists then trimString (version_txt_read.getD "unknown")
  else "unknown"

/-- `cache_for_differential_updates` (main.rs lines 171 to 204): fails if
APPDATA is unset or the cache directory cannot be created; otherwise
succeeds. The Rust function returns `Ok(())`; the model carries the
version string it computed and logged as the success value, to make it
observable. -/
def cache_for_differential_updates (env : CacheEnv) (_install_path : String) :
    Except String String :=
  match env.appdata with
  | none => Except.error "APPDATA not found"
  | some _ =>
    if env.create_cache_dir_ok then
      Except.ok (readVersionTxt env.version_txt_exists env.version_txt_read)
    else Except.error "create_dir_all failed"

/-- `cache_for_silent_install` (main.rs lines 209 to 233): it cannot fail
and only logs; the model returns the version string it computed and
logged. -/
def cache_for_silent_install (env : CacheEnv) (_install_path : String) : String :=
  readVersionTxt env.version_txt_exists env.version_txt_read

/-- The collected output of a spawned process (`std::process::Output`):
exit success flag and captured streams. -/
structure CmdOutput where
  success : Bool
  out : String
  err : String
deriving DecidableEq, Repr

/-- Environment of the shortcut registrar: whether `Mangyomi.exe` exists
under the install path, and the outcome of `Command::output()` for each
of the two PowerShell invocations (error means the process could not be
spawned or waited on; `ok` carries its collected output, whatever its
exit status). -/
structure ShortcutEnv where
  exe_exists : Bool
  spawn_desktop : Except String CmdOutput
  spawn_start_menu : Except String CmdOutput
deriving Repr

/-- `create_shortcuts` (main.rs lines 129 to 167): if the target
executable is absent, return `Ok(())` immediately; otherwise run the two
PowerShell shortcut commands, propagating only a spawn/wait failure (the
`?` on `create_lnk` discards the collected `Output`, so the exit status
of PowerShell is never inspected). The `create_dir_all` for the start
menu directory has its result discarded with `.ok()`. -/
def create_shortcuts (env : ShortcutEnv) (_install_path : String) : Except String Unit :=
  if env.exe_exists = false then Except.ok ()
  else
    match env.spawn_desktop with
    | Except.error e => Except.error e
    | Except.ok _ =>
      match env.spawn_start_menu with
      | Except.error e => Except.error e
      | Except.ok _ => Except.ok ()

/-- Environment of `install_app`: the results of resolving the two
payload resource paths (Tauri path resolution does not check existence,
which the code itself acknowledges by testing `.exists()` separately),
the filesystem view, and the outcomes of the effectful steps. -/
structure InstallEnv where
  app_7z : Option String
  app_zip : Option String
  file_exists : String → Bool
  file_size : String → Nat
  create_dir_result : Except String Unit
  sevenz_result : Except String Unit
  zip_body_result : Except String Unit
  shortcut_env : ShortcutEnv
  cache_env : CacheEnv

/-- Payload discovery (main.rs lines 56 to 64): prefer `app.7z` when its
resolution succeeded, it exists and its size exceeds 1000 bytes;
otherwise fall back to the resolved `app.zip` path, failing with the
payload-not-found message only when the zip path did not resolve. -/
def discoverPayload (env : InstallEnv) : Except String (String × Bool) :=
  match env.app_7z with
  | some path =>
    if env.file_exists path = true ∧ 1000 < env.file_size path then
      Except.ok (path, true)
    else
      match env.app_zip with
      | some z => Except.ok (z, false)
      | none => Except.error "Installer payload not found (app.7z or app.zip)"
  | none =>
    match env.app_zip with
    | some z => Except.ok (z, false)
    | none => Except.error "Installer payload not found (app.7z or app.zip)"

/-- Outcome of `extract_zip` as seen by the orchestrator (main.rs lines
102 to 126): opening a nonexistent archive file fails first; otherwise
the abstract outcome of the entry loop. -/
def extract_zip_outcome (env : InstallEnv) (archive_path : String)
    (_output_path : String) : Except String Unit :=
  if env.file_exists archive_path = true then env.zip_body_result
  else Except.error ("Failed to open zip file at " ++ archive_path)

/-- The extraction closure run on the blocking thread (main.rs lines 78
to 86), wrapping either extractor failure with its context message. -/
def extractStep (env : InstallEnv) (res : String) (is_7z : Bool) (dest : String) :
    Except String Unit :=
  if is_7z then
    match env.sevenz_result with
    | Except.error e => Except.error ("7z extraction failed for " ++ res ++ ": " ++ e)
    | Except.ok _ => Except.ok ()
  else
    match extract_zip_outcome env res dest with
    | Except.error e => Except.error ("Zip extraction failed for " ++ res ++ ": " ++ e)
    | Except.ok _ => Except.ok ()

/-- `install_app` (main.rs lines 55 to 100), returning the list of
emitted `install-progress` events and the result. Event emission uses
`.ok()` so a failed emit never aborts; the cache step result is
discarded with `.ok()`. -/
def install_app (env : InstallEnv) (install_path : String) :
    List Payload × Except String Unit :=
  match discoverPayload env with
  | Except.error e => ([], Except.error e)
  | Except.ok (resource_path, is_7z) =>
    match env.create_dir_result with
    | Except.error e => ([], Except.error e)
    | Except.ok _ =>
      let evs1 : List Payload := [⟨"Extracting files...", 10⟩]
      match extractStep env resource_path is_7z install_path with
      | Except.error e => (evs1, Except.error e)
      | Except.ok _ =>
        let evs2 := evs1 ++ [⟨"Creating shortcuts...", 80⟩]
        match create_shortcuts env.shortcut_env install_path with
        | Except.error e => (evs2, Except.error ("Shortcut creation failed: " ++ e))
        | Except.ok _ =>
          let evs3 := evs2 ++ [⟨"Setting up updates...", 90⟩]
          let _ := cache_for_differential_updates env.cache_env install_path
          (evs3 ++ [⟨"Done!", 100⟩], Except.ok ())

/-- The full progress-event sequence of a successful install. -/
def fullProgress : List Payload :=
  [⟨"Extracting files...", 10⟩, ⟨"Creating shortcuts...", 80⟩,
   ⟨"Setting up updates...", 90⟩, ⟨"Done!", 100⟩]

/-- How a run of `main` terminates: a `std::process::exit` with a code,
or handing control to the Tauri graphical shell. -/
inductive MainOutcome where
  | exited (code : Nat)
  | ranShell
deriving DecidableEq, Repr

/-- Observable actions of the silent path in one run of `main`. The
silent path never invokes `create_shortcuts`, so `shortcuts_created`
is false on every branch of the model. -/
structure SilentTrace where
  silent_ran : Bool
  created_dir : Bool
  extracted : Bool
  launch_attempted : Bool
  shortcuts_created : Bool
deriving DecidableEq, Repr

/-- The trace of a run that never enters the silent path. -/
def noSilentTrace : SilentTrace :=
  ⟨false, false, false, false, false⟩

/-- Environment of `main`: the argument list and the outcomes of the
silent-path filesystem steps (`payload_exists` is whether
`resources/app.7z` exists next to the executable, `app_exe_exists`
whether `Mangyomi.exe` exists in the install directory after
extraction). -/
structure MainEnv where
  args : List String
  create_dir_ok : Bool
  payload_exists : Bool
  sevenz_ok : Bool
  app_exe_exists : Bool
  spawn_ok : Bool

/-- The `--silent` flag scan (main.rs lines 262 to 265): set when any
argument equals the flag. -/
def parseSilent (args : List String) : Bool :=
  args.contains "--silent"

/-- The `--install-path` scan (main.rs lines 266 to 271): each
occurrence followed by a value overwrites the previous one, so the value
after the last such occurrence wins. -/
def parseInstallPath (args : List String) : Option String :=
  (List.range args.length).foldl
    (fun acc i =>
      if args.get? i = some "--install-path" then
        match args.get? (i + 1) with
        | some p => some p
        | none => acc
      else acc)
    none

/-- `main` (main.rs lines 242 to 330): if silent mode is set and an
install path was parsed, run the silent install synchronously and exit
(code 1 on directory-creation, payload-discovery or extraction failure,
else code 0, attempting to launch the app first when its executable
exists; a launch spawn failure is only logged). In every other case the
Tauri shell is started. -/
def mainModel (env : MainEnv) : MainOutcome × SilentTrace :=
  let silent_mode := parseSilent env.args
  let install_path := parseInstallPath env.args
  if silent_mode = true then
    match install_path with
    | some _path =>
      if env.create_dir_ok = false then
        (MainOutcome.exited 1, ⟨true, false, false, false, false⟩)
      else if env.payload_exists = true then
        if env.sevenz_ok = false then
          (MainOutcome.exited 1, ⟨true, true, false, false, false⟩)
        else
          (MainOutcome.exited 0, ⟨true, true, true, env.app_exe_exists, false⟩)
      else
        (MainOutcome.exited 1, ⟨true, true, false, false, false⟩)
    | none => (MainOutcome.ranShell, noSilentTrace)
  else (MainOutcome.ranShell, noSilentTrace)

/-- A concrete environment in which every step succeeds via the 7z
payload and the target executable is absent (so shortcut registration
no-ops). -/
def env7zOk : InstallEnv :=
  { app_7z := some "resources/app.7z"
    app_zip := some "resources/app.zip"
    file_exists := fun _ => true
    file_size := fun _ => 2000000
    create_dir_result := Except.ok ()
    sevenz_result := Except.ok ()
    zip_body_result := Except.ok ()
    shortcut_env := ⟨false, Except.ok ⟨true, "", ""⟩, Except.ok ⟨true, "", ""⟩⟩
    cache_env := ⟨some "C:/Users/u/AppData/Roaming", true, true, some "1.2.3"⟩ }

/-- Like `env7zOk` but the desktop PowerShell process cannot be
spawned, so shortcut registration fails. -/
def envShortcutFail : InstallEnv :=
  { env7zOk with
      shortcut_env := ⟨true, Except.error "Access is denied", Except.ok ⟨true, "", ""⟩⟩ }

/-- Like `env7zOk` but APPDATA is unset, so the version-cache recorder
fails. -/
def envCacheFail : InstallEnv :=
  { env7zOk with cache_env := ⟨none, true, false, none⟩ }

/-- A concrete environment where the 7z resource does not resolve, the
zip resource resolves to a path, but no file exists on disk at all. -/
def envZipMissing : InstallEnv :=
  { app_7z := none
    app_zip := some "resources/app.zip"
    file_exists := fun _ => false
    file_size := fun _ => 0
    create_dir_result := Except.ok ()
    sevenz_result := Except.ok ()
    zip_body_result := Except.ok ()
    shortcut_env := ⟨false, Except.ok ⟨true, "", ""⟩, Except.ok ⟨true, "", ""⟩⟩
    cache_env := ⟨some "C:/Users/u/AppData/Roaming", true, false, none⟩ }

/-- A shortcut environment where both PowerShell processes run but exit
unsuccessfully and create no `.lnk` file. -/
def shortcutEnvPsFailed : ShortcutEnv :=
  ⟨true, Except.ok ⟨false, "", "CreateShortcut failed"⟩,
    Except.ok ⟨false, "", "CreateShortcut failed"⟩⟩

/-- Arguments of a silent update invocation. -/
def silentArgs : List String :=
  ["installer.exe", "--silent", "--install-path", "C:/Out"]

/-- A silent-mode environment where every step succeeds. -/
def mainEnvOk : MainEnv :=
  ⟨silentArgs, true, true, true, true, true⟩

/-- An environment with `--silent` but no `--install-path`, which must
start the graphical shell. -/
def mainEnvShell : MainEnv :=
  ⟨["installer.exe", "--silent"], true, true, true, true, true⟩

end Mangyomi

namespace Mangyomi

/-- Claim C1: for every extracted zip archive, every entry is written
strictly inside the destination directory. The code performs no
sanitization, so an entry named `../evil.txt` is written at
`dest/../evil.txt`, which resolves outside the destination, and an entry
with an absolute name replaces the destination entirely: both escaping
writes are in the write set of `extract_zip`. -/
theorem extract_zip_writes_escape :
    resolves_inside (parsePath "C:/Programs/Mangyomi")
      (entryOutPath "C:/Programs/Mangyomi" ⟨"../evil.txt", false⟩) = false ∧
    entryOutPath "C:/Programs/Mangyomi" ⟨"../evil.txt", false⟩ ∈
      extract_zip_writes "C:/Programs/Mangyomi"
        [⟨"../evil.txt", false⟩, ⟨"/evil2.txt", false⟩] ∧
    resolves_inside (parsePath "C:/Programs/Mangyomi")
      (entryOutPath "C:/Programs/Mangyomi" ⟨"/evil2.txt", false⟩) = false := by
  refine ⟨?_, ?_, ?_⟩ <;> decide

/-- Claim C2, counterexample: when the 7z resource does not resolve and
the zip resource resolves to a path whose file does not exist, payload
discovery accepts the zip payload, and the install fails later with the
zip-extraction error, not with the payload-not-found error the claim
requires. -/
theorem zip_fallback_missing_not_payload_not_found :
    discoverPayload envZipMissing = Except.ok ("resources/app.zip", false) ∧
    (install_app envZipMissing "C:/Programs/Mangyomi").2 =
      Except.error
        "Zip extraction failed for resources/app.zip: Failed to open zip file at resources/app.zip" ∧
    (install_app envZipMissing "C:/Programs/Mangyomi").2 ≠
      Except.error "Installer payload not found (app.7z or app.zip)" := by
  refine ⟨rfl, rfl, fun h => ?_⟩
  have h2 :
      ("Zip extraction failed for resources/app.zip: Failed to open zip file at resources/app.zip"
        : String) = "Installer payload not found (app.7z or app.zip)" := by
    injection h
  exact absurd h2 (by decide)

/-- Claim C2, amended: payload discovery prefers the 7z payload when it
resolved, exists and exceeds 1000 bytes; otherwise it falls back to the
resolved zip path; install fails with the payload-not-found error
exactly when the needed zip path did not resolve. A resolved zip path
whose file is missing is accepted by discovery and fails later at
extraction. -/
theorem discover_payload_spec (env : InstallEnv) (ip : String) :
    (∀ p, env.app_7z = some p → env.file_exists p = true → 1000 < env.file_size p →
      discoverPayload env = Except.ok (p, true)) ∧
    (∀ p z, env.app_7z = some p →
      ¬(env.file_exists p = true ∧ 1000 < env.file_size p) →
      env.app_zip = some z → discoverPayload env = Except.ok (z, false)) ∧
    (∀ z, env.app_7z = none → env.app_zip = some z →
      discoverPayload env = Except.ok (z, false)) ∧
    (env.app_zip = none →
      (env.app_7z = none ∨
        ∃ p, env.app_7z = some p ∧
          ¬(env.file_exists p = true ∧ 1000 < env.file_size p)) →
      install_app env ip =
        ([], Except.error "Installer payload not found (app.7z or app.zip)")) := by
  refine ⟨?_, ?_, ?_, ?_⟩
  · intro p hp h1 h2
    simp [discoverPayload, hp, h1, h2]
  · intro p z hp hno hz
    simp [discoverPayload, hp, hno, hz]
  · intro z h7 hz
    simp [discoverPayload, h7, hz]
  · intro hz h
    rcases h with h7 | ⟨p, hp, hno⟩
    · simp [install_app, discoverPayload, h7, hz]
    · simp [install_app, discoverPayload, hp, hno, hz]

/-- Witness for `discover_payload_spec` at a concrete environment: the
existing, large 7z payload is selected. -/
theorem discover_payload_spec_witness :
    env7zOk.app_7z = some "resources/app.7z" ∧
    env7zOk.file_exists "resources/app.7z" = true ∧
    1000 < env7zOk.file_size "resources/app.7z" ∧
    discoverPayload env7zOk = Except.ok ("resources/app.7z", true) :=
  ⟨rfl, rfl, by decide,
    (discover_payload_spec env7zOk "C:/Programs/Mangyomi").1
      "resources/app.7z" rfl rfl (by decide)⟩

/-- Claim C3: a successful `install_app` run emits exactly the four
progress events, in order, with strictly increasing percents and no
duplicate. -/
theorem install_success_events (env : InstallEnv) (ip : String)
    (h : (install_app env ip).2 = Except.ok ()) :
    (install_app env ip).1 = fullProgress ∧
    List.Pairwise (fun a b : Payload => a.percent < b.percent)
      (install_app env ip).1 := by
  have hevents : (install_app env ip).1 = fullProgress := by
    cases hd : discoverPayload env with
    | error e => simp [install_app, hd] at h
    | ok pr =>
      obtain ⟨rp, is7⟩ := pr
      cases hc : env.create_dir_result with
      | error e => simp [install_app, hd, hc] at h
      | ok u =>
        cases he : extractStep env rp is7 ip with
        | error e => simp [install_app, hd, hc, he] at h
        | ok u2 =>
          cases hs : create_shortcuts env.shortcut_env ip with
          | error e => simp [install_app, hd, hc, he, hs] at h
          | ok u3 => simp [install_app, fullProgress, hd, hc, he, hs]
  refine ⟨hevents, ?_⟩
  rw [hevents]
  decide

/-- Witness for `install_success_events`: a fully successful run. -/
theorem install_success_events_witness :
    (install_app env7zOk "C:/Programs/Mangyomi").2 = Except.ok () ∧
    (install_app env7zOk "C:/Programs/Mangyomi").1 = fullProgress :=
  ⟨rfl, (install_success_events env7zOk "C:/Programs/Mangyomi" rfl).1⟩

/-- Claim C4: when the run reaches shortcut registration and the
registrar fails, `install_app` returns that error (with its context
prefix) and the 90 percent event is not emitted in that run. -/
theorem shortcut_failure_fatal (env : InstallEnv) (ip rp : String) (is7 : Bool)
    (e : String)
    (hd : discoverPayload env = Except.ok (rp, is7))
    (hc : env.create_dir_result = Except.ok ())
    (he : extractStep env rp is7 ip = Except.ok ())
    (hs : create_shortcuts env.shortcut_env ip = Except.error e) :
    install_app env ip =
      ([⟨"Extracting files...", 10⟩, ⟨"Creating shortcuts...", 80⟩],
        Except.error ("Shortcut creation failed: " ++ e)) ∧
    Payload.mk "Setting up updates..." 90 ∉ (install_app env ip).1 := by
  have hEq : install_app env ip =
      ([⟨"Extracting files...", 10⟩, ⟨"Creating shortcuts...", 80⟩],
        Except.error ("Shortcut creation failed: " ++ e)) := by
    simp [install_app, hd, hc, he, hs]
  refine ⟨hEq, ?_⟩
  rw [hEq]
  show Payload.mk "Setting up updates..." 90 ∉
    [Payload.mk "Extracting files..." 10, Payload.mk "Creating shortcuts..." 80]
  decide

/-- Witness for `shortcut_failure_fatal`: a run whose desktop PowerShell
process cannot be spawned. -/
theorem shortcut_failure_fatal_witness :
    install_app envShortcutFail "C:/Programs/Mangyomi" =
      ([⟨"Extracting files...", 10⟩, ⟨"Creating shortcuts...", 80⟩],
        Except.error ("Shortcut creation failed: " ++ "Access is denied")) ∧
    Payload.mk "Setting up updates..." 90 ∉
      (install_app envShortcutFail "C:/Programs/Mangyomi").1 :=
  shortcut_failure_fatal envShortcutFail "C:/Programs/Mangyomi" "resources/app.7z"
    true "Access is denied" rfl rfl rfl rfl

/-- Claim C5: in silent mode with an install path, a present payload and
successful steps give exit code 0 with the payload extracted and a
launch attempted exactly when the installed executable exists; any
failure of directory creation, payload discovery or extraction gives
exit code 1; no branch ever creates a shortcut. -/
theorem silent_mode_spec (env : MainEnv) (p : String)
    (hs : parseSilent env.args = true)
    (hp : parseInstallPath env.args = some p) :
    (env.create_dir_ok = true → env.payload_exists = true → env.sevenz_ok = true →
      mainModel env =
        (MainOutcome.exited 0, ⟨true, true, true, env.app_exe_exists, false⟩)) ∧
    ((env.create_dir_ok = false ∨ env.payload_exists = false ∨ env.sevenz_ok = false) →
      (mainModel env).1 = MainOutcome.exited 1) ∧
    (mainModel env).2.shortcuts_created = false := by
  refine ⟨?_, ?_, ?_⟩
  · intro h1 h2 h3
    simp [mainModel, hs, hp, h1, h2, h3]
  · intro h
    rcases h with h1 | h2 | h3
    · simp [mainModel, hs, hp, h1]
    · by_cases h1 : env.create_dir_ok = false
      · simp [mainModel, hs, hp, h1]
      · simp only [Bool.not_eq_false] at h1
        simp [mainModel, hs, hp, h1, h2]
    · by_cases h1 : env.create_dir_ok = false
      · simp [mainModel, hs, hp, h1]
      · simp only [Bool.not_eq_false] at h1
        by_cases h2 : env.payload_exists = true
        · simp [mainModel, hs, hp, h1, h2, h3]
        · simp only [Bool.not_eq_true] at h2
          simp [mainModel, hs, hp, h1, h2]
  · by_cases h1 : env.create_dir_ok = false
    · simp [mainModel, hs, hp, h1]
    · simp only [Bool.not_eq_false] at h1
      by_cases h2 : env.payload_exists = true
      · by_cases h3 : env.sevenz_ok = false
        · simp [mainModel, hs, hp, h1, h2, h3]
        · simp only [Bool.not_eq_false] at h3
          simp [mainModel, hs, hp, h1, h2, h3]
      · simp only [Bool.not_eq_true] at h2
        simp [mainModel, hs, hp, h1, h2]

/-- Witness for `silent_mode_spec`: the all-success silent run exits 0
having extracted and attempted the launch. -/
theorem silent_mode_spec_witness :
    mainModel mainEnvOk = (MainOutcome.exited 0, ⟨true, true, true, true, false⟩) :=
  (silent_mode_spec mainEnvOk "C:/Out" (by decide) (by decide)).1 rfl rfl rfl

/-- Claim C6: exactly one of the two execution paths runs. With
`--silent` and an install path the process exits with code 0 or 1 and
the silent path ran; in every other case the graphical shell starts and
the silent path never ran. -/
theorem mode_dispatch_exclusive (env : MainEnv) :
    (∀ p, parseSilent env.args = true → parseInstallPath env.args = some p →
      ((mainModel env).1 = MainOutcome.exited 0 ∨
        (mainModel env).1 = MainOutcome.exited 1) ∧
      (mainModel env).2.silent_ran = true) ∧
    ((parseSilent env.args = false ∨ parseInstallPath env.args = none) →
      mainModel env = (MainOutcome.ranShell, noSilentTrace)) := by
  constructor
  · intro p hs hp
    by_cases h1 : env.create_dir_ok = false
    · simp [mainModel, hs, hp, h1]
    · simp only [Bool.not_eq_false] at h1
      by_cases h2 : env.payload_exists = true
      · by_cases h3 : env.sevenz_ok = false
        · simp [mainModel, hs, hp, h1, h2, h3]
        · simp only [Bool.not_eq_false] at h3
          simp [mainModel, hs, hp, h1, h2, h3]
      · simp only [Bool.not_eq_true] at h2
        simp [mainModel, hs, hp, h1, h2]
  · intro h
    rcases h with h1 | h2
    · simp [mainModel, h1]
    · cases hs : parseSilent env.args with
      | false => simp [mainModel, hs]
      | true => simp [mainModel, hs, h2]

/-- Witness for `mode_dispatch_exclusive`: the silent run terminates
with an exit code; the run lacking an install path starts the shell. -/
theorem mode_dispatch_exclusive_witness :
    (((mainModel mainEnvOk).1 = MainOutcome.exited 0 ∨
        (mainModel mainEnvOk).1 = MainOutcome.exited 1) ∧
      (mainModel mainEnvOk).2.silent_ran = true) ∧
    mainModel mainEnvShell = (MainOutcome.ranShell, noSilentTrace) :=
  ⟨(mode_dispatch_exclusive mainEnvOk).1 "C:/Out" (by decide) (by decide),
    (mode_dispatch_exclusive mainEnvShell).2 (Or.inr (by decide))⟩

/-- Claim C7: when the installed executable is absent, shortcut
registration is a no-op success, and a run whose earlier steps succeed
still succeeds overall with the full event sequence. -/
theorem exe_absent_install_succeeds (env : InstallEnv) (ip rp : String) (is7 : Bool)
    (hx : env.shortcut_env.exe_exists = false)
    (hd : discoverPayload env = Except.ok (rp, is7))
    (hc : env.create_dir_result = Except.ok ())
    (he : extractStep env rp is7 ip = Except.ok ()) :
    create_shortcuts env.shortcut_env ip = Except.ok () ∧
    install_app env ip = (fullProgress, Except.ok ()) := by
  have hsc : create_shortcuts env.shortcut_env ip = Except.ok () := by
    simp [create_shortcuts, hx]
  exact ⟨hsc, by simp [install_app, fullProgress, hd, hc, he, hsc]⟩

/-- Witness for `exe_absent_install_succeeds` at the concrete
environment whose executable is absent. -/
theorem exe_absent_install_succeeds_witness :
    create_shortcuts env7zOk.shortcut_env "C:/Programs/Mangyomi" = Except.ok () ∧
    install_app env7zOk "C:/Programs/Mangyomi" = (fullProgress, Except.ok ()) :=
  exe_absent_install_succeeds env7zOk "C:/Programs/Mangyomi" "resources/app.7z" true
    rfl rfl rfl rfl

/-- Claim C8: the cache step is unconstrained in the hypotheses, so any
cache outcome, including failure, leaves a run whose earlier steps
succeeded returning success with the final event emitted. -/
theorem cache_failure_nonfatal (env : InstallEnv) (ip rp : String) (is7 : Bool)
    (hd : discoverPayload env = Except.ok (rp, is7))
    (hc : env.create_dir_result = Except.ok ())
    (he : extractStep env rp is7 ip = Except.ok ())
    (hs : create_shortcuts env.shortcut_env ip = Except.ok ()) :
    install_app env ip = (fullProgress, Except.ok ()) := by
  simp [install_app, fullProgress, hd, hc, he, hs]

/-- Witness for `cache_failure_nonfatal`: the cache recorder fails with
the APPDATA error, yet install succeeds with all events. -/
theorem cache_failure_nonfatal_witness :
    cache_for_differential_updates envCacheFail.cache_env "C:/Programs/Mangyomi" =
      Except.error "APPDATA not found" ∧
    install_app envCacheFail "C:/Programs/Mangyomi" = (fullProgress, Except.ok ()) :=
  ⟨rfl, cache_failure_nonfatal envCacheFail "C:/Programs/Mangyomi" "resources/app.7z"
    true rfl rfl rfl rfl⟩

/-- Claim C9: when the `version.txt` marker is absent or unreadable,
both cache recording routines compute the sentinel version. -/
theorem version_missing_defaults_unknown (env : CacheEnv) (ip : String)
    (h : env.version_txt_exists = false ∨ env.version_txt_read = none) :
    cache_for_silent_install env ip = "unknown" ∧
    (∀ a, env.appdata = some a → env.create_cache_dir_ok = true →
      cache_for_differential_updates env ip = Except.ok "unknown") := by
  have hv : readVersionTxt env.version_txt_exists env.version_txt_read = "unknown" := by
    rcases h with h1 | h2
    · simp [readVersionTxt, h1]
    · cases hx : env.version_txt_exists with
      | false => simp [readVersionTxt]
      | true =>
        simp only [readVersionTxt, h2, if_true, Option.getD_none]
        decide
  refine ⟨hv, fun a ha hdir => ?_⟩
  simp [cache_for_differential_updates, ha, hdir, hv]

/-- Witness for `version_missing_defaults_unknown` with an absent
marker. -/
theorem version_missing_defaults_unknown_witness :
    cache_for_silent_install ⟨some "C:/AppData", true, false, none⟩
      "C:/Programs/Mangyomi" = "unknown" ∧
    cache_for_differential_updates ⟨some "C:/AppData", true, false, none⟩
      "C:/Programs/Mangyomi" = Except.ok "unknown" := by
  have h := version_missing_defaults_unknown ⟨some "C:/AppData", true, false, none⟩
    "C:/Programs/Mangyomi" (Or.inl rfl)
  exact ⟨h.1, h.2 "C:/AppData" rfl rfl⟩

/-- Claim C10: `create_shortcuts` succeeds whenever both PowerShell
processes can be started and their output collected, whatever that
output is, and an error it reports is always a spawn or wait error of
one of the two processes. -/
theorem create_shortcuts_spawn_only (env : ShortcutEnv) (ip : String) :
    ((∃ o1, env.spawn_desktop = Except.ok o1) →
      (∃ o2, env.spawn_start_menu = Except.ok o2) →
      create_shortcuts env ip = Except.ok ()) ∧
    (∀ e, create_shortcuts env ip = Except.error e →
      env.spawn_desktop = Except.error e ∨ env.spawn_start_menu = Except.error e) := by
  constructor
  · rintro ⟨o1, h1⟩ ⟨o2, h2⟩
    cases hx : env.exe_exists with
    | false => simp [create_shortcuts, hx]
    | true => simp [create_shortcuts, hx, h1, h2]
  · intro e he
    by_cases hx : env.exe_exists = false
    · simp [create_shortcuts, hx] at he
    · cases h1 : env.spawn_desktop with
      | error e1 =>
        simp [create_shortcuts, hx, h1] at he
        subst he
        exact Or.inl rfl
      | ok o1 =>
        cases h2 : env.spawn_start_menu with
        | error e2 =>
          simp [create_shortcuts, hx, h1, h2] at he
          subst he
          exact Or.inr rfl
        | ok o2 => simp [create_shortcuts, hx, h1, h2] at he

/-- Witness for `create_shortcuts_spawn_only`: both PowerShell runs exit
unsuccessfully yet registration succeeds. -/
theorem create_shortcuts_spawn_only_witness :
    create_shortcuts shortcutEnvPsFailed "C:/Programs/Mangyomi" = Except.ok () :=
  (create_shortcuts_spawn_only shortcutEnvPsFailed "C:/Programs/Mangyomi").1
    ⟨⟨false, "", "CreateShortcut failed"⟩, rfl⟩
    ⟨⟨false, "", "CreateShortcut failed"⟩, rfl⟩

end Mangyomi
